import Mathlib

/-!
Verification of the baseer-backend detection-reconciliation and
cost-estimation pipeline.

Shallow embedding of:
  * `src/utils/consensus.py`           (`get_multi_model_consensus`)
  * `src/app/utils/scale_calculator.py` (`calculate_scale`)
  * `src/app/models/damage_processor.py` (`_calculate_paint_area`,
    paint-cost formula, progress checkpoints, job orchestration)
  * `src/app/utils/cost_calculator.py`  (`calculate_costs`)

Python floats are modelled as rationals (all constants in the source are
exact decimal literals); machine-level float rounding does not affect any
of the properties below.
-/

set_option allowUnsafeReducibility true in
attribute [semireducible] Rat.mul Rat.inv Rat.add Rat.sub Rat.ofScientific

set_option maxRecDepth 8000

namespace Baseer

/-- An axis-aligned pixel box `(x1, y1, x2, y2)`, the `xyxy` format. -/
structure Box where
  x1 : ℚ
  y1 : ℚ
  x2 : ℚ
  y2 : ℚ
deriving DecidableEq, Repr

/-- Area of a box as computed by the source: `(x2-x1)*(y2-y1)` (no clamping). -/
def Box.area (b : Box) : ℚ := (b.x2 - b.x1) * (b.y2 - b.y1)

/-- Intersection area of two boxes, as in `consensus.py` lines 50-55 and
`damage_processor.py` lines 347-351: `max 0 (xi2-xi1) * max 0 (yi2-yi1)`. -/
def interArea (a b : Box) : ℚ :=
  let xi1 := max a.x1 b.x1
  let yi1 := max a.y1 b.y1
  let xi2 := min a.x2 b.x2
  let yi2 := min a.y2 b.y2
  max 0 (xi2 - xi1) * max 0 (yi2 - yi1)

/-- Boolean: the first character list is an initial segment of the second. -/
def startsWith : List Char → List Char → Bool
  | [], _ => true
  | _ :: _, [] => false
  | a :: as, b :: bs => a == b && startsWith as bs

/-- Boolean substring search on character lists (Python's `in` on strings). -/
def hasSub (nd : List Char) : List Char → Bool
  | [] => startsWith nd []
  | c :: rest => startsWith nd (c :: rest) || hasSub nd rest

/-- Python's `s.lower()`, modelled on the character list (class names in
this code base are ASCII). `String.toLower` itself is avoided only because
its recursion is not kernel-reducible. -/
def lowerChars (s : String) : List Char := s.toList.map Char.toLower

/-- Python's `needle in hay.lower()` for strings. -/
def strHas (needle hay : String) : Bool := hasSub needle.toList (lowerChars hay)

/-! ## Multi-model consensus matcher (`src/utils/consensus.py`) -/

/-- One flattened detection as collected in `get_multi_model_consensus`
lines 24-33: pixel box, confidence, integer class id, and the resolved
class name `res.names[cls]`. The `source` field (a live results object)
is not part of any computation except `class_name`/`cls` and is omitted. -/
structure RawBox where
  xyxy : Box
  conf : ℚ
  cls : Int
  class_name : String
deriving DecidableEq, Repr

/-- The IoU match test of lines 50-60: intersection over union, matched
when `union > 0 and inter / union > iou_threshold`. -/
def iouMatch (th : ℚ) (b1 b2 : Box) : Bool :=
  let inter := interArea b1 b2
  let union := b1.area + b2.area - inter
  decide (0 < union) && decide (th < inter / union)

/-- Greedy single-pass clustering of lines 39-62: the head of the list
takes every later detection whose IoU with it exceeds the threshold; the
rest are processed the same way. (In the source, every index `< i` is
already marked used when index `i` is reached, so the scan over "all other
unconsumed" boxes is exactly a scan over the unconsumed tail.) Structural
recursion via fuel so the kernel can evaluate it. -/
def clustersAux (th : ℚ) : Nat → List RawBox → List (List RawBox)
  | 0, _ => []
  | _ + 1, [] => []
  | fuel + 1, b1 :: rest =>
      (b1 :: rest.filter fun b2 => iouMatch th b1.xyxy b2.xyxy) ::
        clustersAux th fuel (rest.filter fun b2 => !iouMatch th b1.xyxy b2.xyxy)

/-- The match groups formed by `get_multi_model_consensus` over the
flattened detection list. -/
def clusters (th : ℚ) (l : List RawBox) : List (List RawBox) :=
  clustersAux th l.length l

/-- A consensus item as built in lines 72-110 (the `model_names` field, a
reference to a live results object, is omitted; `contributor_count` records
the size of the emitting match group, the spec's `contributor_count`). -/
structure ConsItem where
  xyxy : Box
  conf : ℚ
  cls : Int
  detected_class : String
  is_windshield : Bool
  is_light : Bool
  contributor_count : Nat
deriving DecidableEq, Repr

/-- Mean of a list of rationals (`np.mean`). -/
def qMean (l : List ℚ) : ℚ := l.sum / l.length

/-- Coordinate-wise mean of boxes (`np.mean(..., axis=0)`, line 66). -/
def boxMean (l : List Box) : Box :=
  { x1 := qMean (l.map Box.x1), y1 := qMean (l.map Box.y1)
    x2 := qMean (l.map Box.x2), y2 := qMean (l.map Box.y2) }

/-- Number of members whose class name contains "windshield" (line 70). -/
def windshieldCount (ms : List RawBox) : Nat :=
  (ms.filter fun m => strHas "windshield" m.class_name).length

/-- Number of members whose class name contains "light" (line 83). -/
def lightCount (ms : List RawBox) : Nat :=
  (ms.filter fun m => strHas "light" m.class_name).length

/-- Number of members whose class name contains neither (lines 98-100). -/
def otherDamageCount (ms : List RawBox) : Nat :=
  (ms.filter fun m =>
    !strHas "windshield" m.class_name &&
      !strHas "light" m.class_name).length

/-- Consensus items emitted for one match group, lines 64-112.  Note the
windshield and light checks are independent `if`s; only the generic damage
branch is guarded by the absence of a specific category. -/
def clusterItems (ms : List RawBox) : List ConsItem :=
  if 2 ≤ ms.length then
    let avg_box := boxMean (ms.map RawBox.xyxy)
    let avg_conf := qMean (ms.map RawBox.conf)
    let cls0 := match ms with | [] => 0 | m :: _ => m.cls
    let wc := windshieldCount ms
    let lc := lightCount ms
    (if 2 ≤ wc then
      [{ xyxy := avg_box, conf := avg_conf, cls := cls0,
         detected_class := "Windshield", is_windshield := true,
         is_light := false, contributor_count := ms.length }]
     else []) ++
    (if 2 ≤ lc then
      [{ xyxy := avg_box, conf := avg_conf, cls := cls0,
         detected_class := "Light", is_windshield := false,
         is_light := true, contributor_count := ms.length }]
     else []) ++
    (if ¬ (2 ≤ wc) ∧ ¬ (2 ≤ lc) ∧ 2 ≤ otherDamageCount ms then
      [{ xyxy := avg_box, conf := avg_conf, cls := cls0,
         detected_class := "Damage", is_windshield := false,
         is_light := false, contributor_count := ms.length }]
     else [])
  else []

/-- `get_multi_model_consensus` over the flattened detection list: every
match group contributes its consensus items in order. -/
def get_multi_model_consensus (l : List RawBox) (th : ℚ) : List ConsItem :=
  (clusters th l).flatMap clusterItems

/-! ## Scale calibration (`src/app/utils/scale_calculator.py`) -/

/-- One detection from the handle or component model as `calculate_scale`
reads it: resolved class name, confidence, `xywh` width and height, and the
`xyxy` box. -/
structure Det where
  name : String
  conf : ℚ
  w : ℚ
  h : ℚ
  xyxy : Box
deriving DecidableEq, Repr

/-- Lines 34-39: largest `xywh` width among detections whose lowered name
contains "handle" with confidence above `conf_th = 0.5`. -/
def bestHandlePx (dets : List Det) : ℚ :=
  dets.foldl
    (fun best d =>
      if strHas "handle" d.name && decide (1/2 < d.conf) then max best d.w
      else best) 0

/-- The tire/wheel test of line 47. -/
def isTireDet (d : Det) : Bool :=
  (strHas "wheel" d.name || strHas "tire" d.name) && decide (1/2 < d.conf)

/-- Lines 47-49: largest `min(width, height)` among tire/wheel detections
above confidence 0.5. -/
def bestTirePx (dets : List Det) : ℚ :=
  dets.foldl (fun best d => if isTireDet d then max best (min d.w d.h) else best) 0

/-- Line 50: the `xyxy` boxes of all tire/wheel detections, in order. -/
def tireBoxesOf (dets : List Det) : List Box :=
  (dets.filter isTireDet).map Det.xyxy

/-- Lines 53-55: largest width among "headlight" detections above 0.3. -/
def bestHeadlightPx (dets : List Det) : ℚ :=
  dets.foldl
    (fun best d =>
      if strHas "headlight" d.name && decide (3/10 < d.conf) then max best d.w
      else best) 0

/-- Lines 58-60: largest width among "license"/"plate" detections above 0.65. -/
def bestLicensePx (dets : List Det) : ℚ :=
  dets.foldl
    (fun best d =>
      if (strHas "license" d.name || strHas "plate" d.name) &&
          decide (13/20 < d.conf) then max best d.w
      else best) 0

/-- Lines 62-64: the boxes of "windshield" detections above 0.5. -/
def windshieldBoxesOf (dets : List Det) : List Box :=
  (dets.filter fun d => strHas "windshield" d.name && decide (1/2 < d.conf)).map
    Det.xyxy

/-- Python truthiness of an optional float: `None` and `0.0` are falsy
(`if tire_scale:` on lines 73-84). -/
def truthy : Option ℚ → Bool
  | none => false
  | some q => decide (q ≠ 0)

/-- A candidate scale, lines 67-70: `real_size / best_px` when a detection
was found (`best_px > 0`), else `None`. -/
def candScale (x b : ℚ) : Option ℚ := if 0 < b then some (x / b) else none

/-- The output record of `calculate_scale`, lines 90-104. -/
structure ScaleResult where
  scale_cm_per_px : ℚ
  source : String
  tire_detected : Bool
  handle_detected : Bool
  license_detected : Bool
  headlight_detected : Bool
  tire_boxes : List Box
  windshield_boxes : List Box
  estimated_image_width_cm : ℚ
  best_tire_px : ℚ
  best_handle_px : ℚ
  best_license_px : ℚ
  best_headlight_px : ℚ
deriving DecidableEq, Repr

/-- `calculate_scale` (`src/app/utils/scale_calculator.py` lines 9-104).
Candidate scales are `Option ℚ` (`None` when the best pixel size is 0);
selection tests Python truthiness, so a candidate whose value is `0.0`
falls through exactly as `None` does. -/
def calculate_scale (handleDets compDets : List Det)
    (tire_diameter handle_width license_width : ℚ)
    (image_width_px image_height_px : ℚ) : ScaleResult :=
  let bh := bestHandlePx handleDets
  let bt := bestTirePx compDets
  let bhl := bestHeadlightPx compDets
  let bl := bestLicensePx compDets
  let tire_scale := candScale tire_diameter bt
  let handle_scale := candScale handle_width bh
  let license_scale := candScale license_width bl
  let headlight_scale := candScale 33 bhl
  let sel : ℚ × String :=
    if truthy tire_scale then
      (tire_scale.getD 0, "TIRE/WHEEL-BASED (Priority 1)")
    else if truthy handle_scale then
      (handle_scale.getD 0, "HANDLE-BASED (Priority 2)")
    else if truthy license_scale then
      (license_scale.getD 0, "LICENSE PLATE-BASED (Priority 3)")
    else if truthy headlight_scale then
      (headlight_scale.getD 0, "HEADLIGHT-BASED (33 cm fixed – Priority 4)")
    else
      (100 / image_width_px, "FALLBACK (Image width = 1 meter)")
  { scale_cm_per_px := sel.1
    source := sel.2
    tire_detected := decide (0 < bt)
    handle_detected := decide (0 < bh)
    license_detected := decide (0 < bl)
    headlight_detected := decide (0 < bhl)
    tire_boxes := tireBoxesOf compDets
    windshield_boxes := windshieldBoxesOf compDets
    estimated_image_width_cm := image_width_px * sel.1
    best_tire_px := bt
    best_handle_px := bh
    best_license_px := bl
    best_headlight_px := bhl }

/-! ## Damage classification and paint area
(`src/app/models/damage_processor.py`, `_calculate_paint_area`) -/

/-- Accumulator of the `_calculate_paint_area` loop: running paint area in
cm² and the three component flags. -/
structure PaintAcc where
  paint_area : ℚ
  has_windshield : Bool
  has_light : Bool
  has_tire : Bool
deriving DecidableEq, Repr

/-- The tire-overlap fraction of lines 347-354: intersection area over
`damage_area_px + 1e-6`. -/
def overlapFrac (damage tire : Box) : ℚ :=
  interArea damage tire / (damage.area + 1/1000000)

/-- One iteration of the `_calculate_paint_area` loop (lines 325-361). -/
def paintStep (tire_boxes : List Box) (scale_cm_per_px : ℚ)
    (acc : PaintAcc) (item : ConsItem) : PaintAcc :=
  if item.is_windshield || strHas "windshield" item.detected_class then
    { acc with has_windshield := true }
  else if item.is_light || strHas "light" item.detected_class then
    { acc with has_light := true }
  else
    let damage_area_px := item.xyxy.area
    let area_cm2 := damage_area_px * scale_cm_per_px ^ 2
    let overlapped_tire :=
      tire_boxes.any fun tb => decide (1/2 < overlapFrac item.xyxy tb)
    if overlapped_tire then { acc with has_tire := true }
    else { acc with paint_area := acc.paint_area + area_cm2 }

/-- `_calculate_paint_area` (lines 300-363): fold of `paintStep` from the
zero accumulator. -/
def calculate_paint_area (consensus : List ConsItem) (tire_boxes : List Box)
    (scale_cm_per_px : ℚ) : PaintAcc :=
  consensus.foldl (paintStep tire_boxes scale_cm_per_px)
    ⟨0, false, false, false⟩

/-- Per-photo paint cost, `damage_processor.py` line 175:
`0.019157 * paint_area + 2.093` when the area is positive, else 0. -/
def paintCostPhoto (paint_area : ℚ) : ℚ :=
  if 0 < paint_area then 19157/1000000 * paint_area + 2093/1000 else 0

/-! ## Cost pipeline (`src/app/utils/cost_calculator.py`) -/

/-- The cost breakdown returned by `calculate_costs` (the echoed
`photo_results` input and the per-photo local list are carried as given;
`paint_costs_jod` entries are `(photo_num, area_cm2, cost_jod)`). -/
structure CostData where
  paint_costs_jod : List (Nat × ℚ × ℚ)
  paint_costs_local : List (Nat × ℚ × ℚ)
  paint_total_jod : ℚ
  light_cost_jod : ℚ
  light_cost_local : ℚ
  windshield_cost_jod : ℚ
  windshield_cost_local : ℚ
  tire_cost_jod : ℚ
  tire_cost_local : ℚ
  subtotal_jod_base : ℚ
  subtotal_local_base : ℚ
  tax_rate : ℚ
  tax_amount_on_base_local : ℚ
  subtotal_post_base_tax : ℚ
  luxury_index : ℚ
  country_lux_factor : ℚ
  final_local_cost : ℚ
  currency : String
deriving DecidableEq, Repr

/-- `calculate_costs` (`src/app/utils/cost_calculator.py` lines 8-86).
The unused `photo_results` argument of the source is dropped. -/
def calculate_costs (paint_costs_jod : List (Nat × ℚ × ℚ))
    (global_has_windshield_damage global_has_light_damage
      global_has_tire_damage : Bool)
    (jod_to_local country_tax_rate luxury_index country_lux_factor : ℚ)
    (currency : String) : CostData :=
  let paint_total_jod := (paint_costs_jod.map fun t => t.2.2).sum
  let light_cost_jod : ℚ := if global_has_light_damage then 30 else 0
  let windshield_cost_jod : ℚ := if global_has_windshield_damage then 50 else 0
  let tire_cost_jod : ℚ := if global_has_tire_damage then 20 else 0
  let subtotal_jod_base :=
    paint_total_jod + light_cost_jod + windshield_cost_jod + tire_cost_jod
  let subtotal_local_base := subtotal_jod_base * jod_to_local
  let tax_amount_on_base_local := subtotal_local_base * country_tax_rate
  let subtotal_post_base_tax := subtotal_local_base + tax_amount_on_base_local
  let final_local_cost :=
    subtotal_post_base_tax * luxury_index * country_lux_factor
  { paint_costs_jod := paint_costs_jod
    paint_costs_local :=
      paint_costs_jod.map fun t => (t.1, t.2.1, t.2.2 * jod_to_local)
    paint_total_jod := paint_total_jod
    light_cost_jod := light_cost_jod
    light_cost_local := light_cost_jod * jod_to_local
    windshield_cost_jod := windshield_cost_jod
    windshield_cost_local := windshield_cost_jod * jod_to_local
    tire_cost_jod := tire_cost_jod
    tire_cost_local := tire_cost_jod * jod_to_local
    subtotal_jod_base := subtotal_jod_base
    subtotal_local_base := subtotal_local_base
    tax_rate := country_tax_rate
    tax_amount_on_base_local := tax_amount_on_base_local
    subtotal_post_base_tax := subtotal_post_base_tax
    luxury_index := luxury_index
    country_lux_factor := country_lux_factor
    final_local_cost := final_local_cost
    currency := currency }

/-! ## Job state machine (`src/app/models/damage_processor.py`,
`process_assessment`) -/

/-- The progress values written by the checkpoint updates of a successful
`process_assessment` run over `n` photos, in write order: 5 at
`Initializing` (line 56), 10 at `Loading AI models` (line 60), then
`int((photo_num / n) * 80)` after each photo (line 185), then 85, 88, 92
(lines 201, 230, 241) and 100 at completion (line 263).  The update at
line 95 passes no progress value and writes none. -/
def progressCheckpoints (n : Nat) : List Nat :=
  5 :: 10 :: (((List.range n).map fun k => ((k + 1) * 80) / n) ++ [85, 88, 92, 100])

/-- Economic parameters passed through `assessment_data`. -/
structure EconParams where
  currency_exchange_rate : ℚ
  tax_rate : ℚ
  luxury_index : ℚ
  country_lux_factor : ℚ
  currency : String

/-- The externally visible record `process_assessment` leaves behind for a
job: terminal status, final progress value, error message and whether a
cost breakdown was persisted. -/
structure JobRecord where
  status : String
  progress : Nat
  error : Option String
  cost : Option CostData
deriving DecidableEq, Repr

/-- The failure write of the `except` handler, lines 265-272:
`_update_status(assessment_id, 'failed', error_message, 0)` — status
`failed`, the exception text as error, progress 0, and no cost fields. -/
def failedRecord (e : String) : JobRecord :=
  { status := "failed", progress := 0, error := some e, cost := none }

/-- The effectful collaborators of one `process_assessment` run, each
modelled as its result: model loading (including the `< 7` count check,
lines 61-66), photo download (lines 71-74; per-URL failures are skipped
inside `_download_photos`, so its result is the list that survived),
the per-photo detector-plus-geometry work (lines 101-197, returning the
photo's `_calculate_paint_area` output), and the final persistence
(`_save_results`, which re-raises on write failure, line 703). -/
structure JobEnv (P : Type) where
  capability : Except String Unit
  download : Except String (List P)
  photoStep : P → Except String PaintAcc
  persist : Except String Unit

/-- Sequential per-photo loop: stops at the first failing photo, exactly
as an exception aborts the `for` loop of lines 97-197. -/
def processPhotosE {P : Type} (f : P → Except String PaintAcc) :
    List P → Except String (List PaintAcc)
  | [] => .ok []
  | p :: ps =>
      match f p with
      | .error e => .error e
      | .ok acc =>
          match processPhotosE f ps with
          | .error e => .error e
          | .ok accs => .ok (acc :: accs)

/-- `paint_costs_jod` as accumulated in lines 174-176: one
`(photo_num, paint_area, paint_cost)` triple per photo, in photo order. -/
def paintCostsOf (accs : List PaintAcc) : List (Nat × ℚ × ℚ) :=
  ((List.range accs.length).zip accs).map fun t =>
    (t.1 + 1, t.2.paint_area, paintCostPhoto t.2.paint_area)

/-- The final cost computation of lines 199-214: per-photo paint costs and
OR-reduced global component flags fed to `calculate_costs`. -/
def assessCost (accs : List PaintAcc) (econ : EconParams) : CostData :=
  calculate_costs (paintCostsOf accs)
    (accs.any PaintAcc.has_windshield)
    (accs.any PaintAcc.has_light)
    (accs.any PaintAcc.has_tire)
    econ.currency_exchange_rate econ.tax_rate econ.luxury_index
    econ.country_lux_factor econ.currency

/-- `process_assessment` orchestration (lines 43-272): load capability,
download photos (raising when none survived, line 76-77), process each
photo in order, persist, and finish `completed`; any failure along the way
is caught by the `except` handler and leaves the `failedRecord` of its
message.  PDF generation (lines 460-621) swallows its own errors and
cannot fail the job, so it does not appear. -/
def process_assessment {P : Type} (env : JobEnv P) (econ : EconParams) :
    JobRecord :=
  match env.capability with
  | .error e => failedRecord e
  | .ok _ =>
      match env.download with
      | .error e => failedRecord e
      | .ok photos =>
          if photos.isEmpty then failedRecord "Failed to download photos"
          else
            match processPhotosE env.photoStep photos with
            | .error e => failedRecord e
            | .ok accs =>
                match env.persist with
                | .error e => failedRecord e
                | .ok _ =>
                    { status := "completed", progress := 100, error := none
                      cost := some (assessCost accs econ) }


/-! ## Concrete inputs used by witnesses and counterexamples -/

/-- Two overlapping generic detections (IoU 81/119 > 1/2). -/
def dentA : RawBox := ⟨⟨0, 0, 10, 10⟩, 4/5, 0, "dent"⟩

/-- See `dentA`. -/
def dentB : RawBox := ⟨⟨1, 1, 11, 11⟩, 3/5, 1, "scratch"⟩

/-- A detection far away from `dentA`/`dentB` (IoU 0 with both). -/
def farBox : RawBox := ⟨⟨100, 100, 110, 110⟩, 9/10, 2, "dent"⟩

/-- A single match group (four identical boxes) with two windshield-labelled
and two light-labelled members. -/
def c2input : List RawBox :=
  [⟨⟨0, 0, 10, 10⟩, 1/2, 0, "Windshield"⟩,
   ⟨⟨0, 0, 10, 10⟩, 1/2, 1, "windshield crack"⟩,
   ⟨⟨0, 0, 10, 10⟩, 1/2, 2, "Broken Light"⟩,
   ⟨⟨0, 0, 10, 10⟩, 1/2, 3, "light"⟩]

/-- A valid tire/wheel detection: square 100 px, confidence 0.9. -/
def tireDet : Det := ⟨"tire", 9/10, 100, 100, ⟨200, 200, 300, 300⟩⟩

/-- A valid handle detection: width 20 px, confidence 0.8. -/
def handleDet : Det := ⟨"door handle", 4/5, 20, 8, ⟨0, 0, 20, 8⟩⟩

/-- A generic damage region: 10×10 px at the origin. -/
def c5item : ConsItem := ⟨⟨0, 0, 10, 10⟩, 1, 0, "Damage", false, false, 2⟩

/-- A tire box covering exactly the lower half of `c5item` (50% overlap). -/
def c5tire : Box := ⟨0, 0, 10, 5⟩

/-- Raw detections for scenario A: two models put a 50×50 px generic box
at the origin (IoU 1). -/
def scenarioARaw : List RawBox :=
  [⟨⟨0, 0, 50, 50⟩, 9/10, 0, "dent"⟩, ⟨⟨0, 0, 50, 50⟩, 4/5, 1, "scratch"⟩]

/-- Scenario A scale: `tireDet` (100 px square) with caller diameter 60 cm. -/
def scenarioAScale : ScaleResult := calculate_scale [] [tireDet] 60 0 0 500 500

/-- Scenario A consensus items. -/
def scenarioAConsensus : List ConsItem := get_multi_model_consensus scenarioARaw (1/2)

/-- Scenario A paint aggregation against the stored tire boxes. -/
def scenarioAPaint : PaintAcc :=
  calculate_paint_area scenarioAConsensus scenarioAScale.tire_boxes
    scenarioAScale.scale_cm_per_px

/-- A three-photo environment whose second photo fails. -/
def c9env : JobEnv Nat :=
  { capability := .ok ()
    download := .ok [1, 2, 3]
    photoStep := fun n =>
      if n = 2 then .error "photo 2 failed" else .ok ⟨0, false, false, false⟩
    persist := .ok () }

/-- Economic parameters for the C9 witness. -/
def c9econ : EconParams := ⟨1, 1/10, 1, 1, "JOD"⟩

/-- Boolean non-decreasing check over a written progress sequence. -/
def nondecreasing : List Nat → Bool
  | [] => true
  | [_] => true
  | a :: b :: rest => decide (a ≤ b) && nondecreasing (b :: rest)

/-! ## Helper lemmas -/

/-- Every item emitted for a match group records the group's size, and the
group has at least two members. -/
theorem mem_clusterItems {ms : List RawBox} {item : ConsItem}
    (h : item ∈ clusterItems ms) :
    2 ≤ ms.length ∧ item.contributor_count = ms.length := by
  unfold clusterItems at h
  by_cases hlen : 2 ≤ ms.length
  · refine ⟨hlen, ?_⟩
    simp only [if_pos hlen, List.mem_append] at h
    rcases h with (h | h) | h <;> split at h <;> simp_all
  · simp [if_neg hlen] at h

/-! ## Claims -/

/-- C1: every consensus item emitted by `get_multi_model_consensus` comes
from a match group with at least 2 members (`contributor_count ≥ 2`), and
a detection whose IoU match test fails against every other unconsumed
detection contributes nothing: the output is as if it were absent. -/
theorem c1_consensus_requires_two_contributors :
    (∀ (th : ℚ) (l : List RawBox) (item : ConsItem),
        item ∈ get_multi_model_consensus l th → 2 ≤ item.contributor_count) ∧
    (∀ (th : ℚ) (b1 : RawBox) (rest : List RawBox),
        (∀ b2 ∈ rest, iouMatch th b1.xyxy b2.xyxy = false) →
        get_multi_model_consensus (b1 :: rest) th
          = get_multi_model_consensus rest th) := by
  constructor
  · intro th l item h
    unfold get_multi_model_consensus at h
    obtain ⟨c, _, hi⟩ := List.mem_flatMap.mp h
    obtain ⟨h2, hc⟩ := mem_clusterItems hi
    omega
  · intro th b1 rest hnone
    unfold get_multi_model_consensus clusters
    have hpos : rest.filter (fun b2 => iouMatch th b1.xyxy b2.xyxy) = [] := by
      rw [List.filter_eq_nil_iff]
      intro b2 hb
      simp [hnone b2 hb]
    have hneg : rest.filter (fun b2 => !iouMatch th b1.xyxy b2.xyxy) = rest := by
      rw [List.filter_eq_self]
      intro b2 hb
      simp [hnone b2 hb]
    simp [clustersAux, hpos, hneg, clusterItems]



/-- Witness for C1: the pair `dentA`, `dentB` emits one item with
`contributor_count = 2`, and prepending the unmatched `farBox` leaves the
output unchanged (it is discarded, not emitted alone). -/
theorem c1_witness :
    2 ≤ (⟨⟨1/2, 1/2, 21/2, 21/2⟩, 7/10, 0, "Damage", false, false, 2⟩ :
        ConsItem).contributor_count ∧
    get_multi_model_consensus (farBox :: [dentA, dentB]) (1/2)
      = get_multi_model_consensus [dentA, dentB] (1/2) :=
  ⟨c1_consensus_requires_two_contributors.1 (1/2) [dentA, dentB] _ (by decide),
   c1_consensus_requires_two_contributors.2 (1/2) farBox [dentA, dentB]
     (by decide)⟩



/-- Counterexample to C2 as stated: `c2input` forms a single match group
(≥2 windshield members and ≥2 light members), yet the code emits TWO
consensus items for it — a Windshield item and a Light item — because the
windshield and light checks are independent `if`s, not an `elif` chain. -/
theorem c2_counterexample :
    clusters (1/2) c2input = [c2input] ∧
    (get_multi_model_consensus c2input (1/2)).map ConsItem.detected_class
      = ["Windshield", "Light"] := by decide

/-- C2 amended: per cluster at most two items are emitted; a cluster with
≥2 windshield and ≥2 light members yields exactly the two items Windshield
then Light; a generic Damage item is emitted only when neither specific
category reached two members. -/
theorem c2_amended_per_cluster (ms : List RawBox) :
    (clusterItems ms).length ≤ 2 ∧
    (2 ≤ ms.length → 2 ≤ windshieldCount ms → 2 ≤ lightCount ms →
      (clusterItems ms).map ConsItem.detected_class = ["Windshield", "Light"]) ∧
    (∀ item ∈ clusterItems ms, item.detected_class = "Damage" →
      windshieldCount ms < 2 ∧ lightCount ms < 2) := by
  have hWD : ("Windshield" : String) ≠ "Damage" := by decide
  have hLD : ("Light" : String) ≠ "Damage" := by decide
  unfold clusterItems
  by_cases hlen : 2 ≤ ms.length
  · simp only [if_pos hlen]
    by_cases hw : 2 ≤ windshieldCount ms <;>
      by_cases hl : 2 ≤ lightCount ms <;>
        by_cases ho : 2 ≤ otherDamageCount ms <;>
          simp [hw, hl, ho, hWD, hLD] <;> omega
  · simp [if_neg hlen]
    omega

/-- Witness for C2 amended, at the concrete cluster `c2input`. -/
theorem c2_amended_witness :
    (clusterItems c2input).map ConsItem.detected_class
      = ["Windshield", "Light"] :=
  (c2_amended_per_cluster c2input).2.1 (by decide) (by decide) (by decide)

/-! ### Scale-selection helper lemmas -/

/-- A max-accumulating fold never goes below its starting value. -/
theorem le_foldl_best (g : Det → ℚ) (c : Det → Bool) (dets : List Det) (b : ℚ) :
    b ≤ dets.foldl (fun best d => if c d then max best (g d) else best) b := by
  induction dets generalizing b with
  | nil => exact le_refl b
  | cons d ds ih =>
      simp only [List.foldl_cons]
      cases hc : c d
      · rw [if_neg Bool.false_ne_true]
        exact ih b
      · rw [if_pos rfl]
        exact le_trans (le_max_left b (g d)) (ih (max b (g d)))

theorem bestTirePx_nonneg (cd : List Det) : 0 ≤ bestTirePx cd :=
  le_foldl_best _ _ cd 0

theorem bestHandlePx_nonneg (hd : List Det) : 0 ≤ bestHandlePx hd :=
  le_foldl_best _ _ hd 0

theorem bestLicensePx_nonneg (cd : List Det) : 0 ≤ bestLicensePx cd :=
  le_foldl_best _ _ cd 0

theorem bestHeadlightPx_nonneg (cd : List Det) : 0 ≤ bestHeadlightPx cd :=
  le_foldl_best _ _ cd 0

/-- Python truthiness of a candidate scale `real / px` guarded by `px > 0`:
truthy exactly when a detection was found and the resulting value is not
`0.0`, i.e. the real measurement is nonzero. -/
theorem truthy_cand (x b : ℚ) :
    truthy (candScale x b) = true ↔ 0 < b ∧ x ≠ 0 := by
  by_cases hb : 0 < b
  · simp [truthy, candScale, hb, div_eq_zero_iff, ne_of_gt hb]
  · simp [truthy, candScale, hb]

/-- Value of a present candidate scale. -/
theorem candScale_getD {b : ℚ} (x : ℚ) (hb : 0 < b) :
    (candScale x b).getD 0 = x / b := by
  simp [candScale, hb]

/-- Branch: tire candidate truthy. -/
theorem scale_tire (hd cd : List Det) (td hw lw W H : ℚ)
    (h1 : 0 < bestTirePx cd) (h2 : td ≠ 0) :
    (calculate_scale hd cd td hw lw W H).scale_cm_per_px = td / bestTirePx cd ∧
    (calculate_scale hd cd td hw lw W H).source
      = "TIRE/WHEEL-BASED (Priority 1)" := by
  simp [calculate_scale, truthy_cand, candScale_getD _ h1, h1, h2]

/-- Branch: tire falsy, handle truthy. -/
theorem scale_handle (hd cd : List Det) (td hw lw W H : ℚ)
    (h1 : ¬ (0 < bestTirePx cd ∧ td ≠ 0))
    (h2 : 0 < bestHandlePx hd) (h3 : hw ≠ 0) :
    (calculate_scale hd cd td hw lw W H).scale_cm_per_px
      = hw / bestHandlePx hd ∧
    (calculate_scale hd cd td hw lw W H).source = "HANDLE-BASED (Priority 2)" := by
  simp [calculate_scale, truthy_cand, candScale_getD _ h2, h1, h2, h3]

/-- Branch: tire and handle falsy, license truthy. -/
theorem scale_license (hd cd : List Det) (td hw lw W H : ℚ)
    (h1 : ¬ (0 < bestTirePx cd ∧ td ≠ 0))
    (h2 : ¬ (0 < bestHandlePx hd ∧ hw ≠ 0))
    (h3 : 0 < bestLicensePx cd) (h4 : lw ≠ 0) :
    (calculate_scale hd cd td hw lw W H).scale_cm_per_px
      = lw / bestLicensePx cd ∧
    (calculate_scale hd cd td hw lw W H).source
      = "LICENSE PLATE-BASED (Priority 3)" := by
  simp [calculate_scale, truthy_cand, candScale_getD _ h3, h1, h2, h3, h4]

/-- Branch: tire, handle and license falsy, headlight present (its fixed
33 cm measurement is never zero, so detection alone suffices). -/
theorem scale_headlight (hd cd : List Det) (td hw lw W H : ℚ)
    (h1 : ¬ (0 < bestTirePx cd ∧ td ≠ 0))
    (h2 : ¬ (0 < bestHandlePx hd ∧ hw ≠ 0))
    (h3 : ¬ (0 < bestLicensePx cd ∧ lw ≠ 0))
    (h4 : 0 < bestHeadlightPx cd) :
    (calculate_scale hd cd td hw lw W H).scale_cm_per_px
      = 33 / bestHeadlightPx cd ∧
    (calculate_scale hd cd td hw lw W H).source
      = "HEADLIGHT-BASED (33 cm fixed – Priority 4)" := by
  simp [calculate_scale, truthy_cand, candScale_getD _ h4, h1, h2, h3, h4]

/-- Branch: every candidate falsy — the fixed fallback. -/
theorem scale_fallback (hd cd : List Det) (td hw lw W H : ℚ)
    (h1 : ¬ (0 < bestTirePx cd ∧ td ≠ 0))
    (h2 : ¬ (0 < bestHandlePx hd ∧ hw ≠ 0))
    (h3 : ¬ (0 < bestLicensePx cd ∧ lw ≠ 0))
    (h4 : ¬ 0 < bestHeadlightPx cd) :
    (calculate_scale hd cd td hw lw W H).scale_cm_per_px = 100 / W ∧
    (calculate_scale hd cd td hw lw W H).source
      = "FALLBACK (Image width = 1 meter)" := by
  simp [calculate_scale, truthy_cand, h1, h2, h3, h4]

/-- C3: scale source selection is the fixed priority chain tire > handle >
license > headlight, first truthy candidate wins.  With a valid tire
candidate the source is TIRE whatever else is present; with the tire
candidate absent (or its measurement zero) a valid handle wins; and so on
down the chain. -/
theorem c3_scale_priority (hd cd : List Det) (td hw lw W H : ℚ) :
    (0 < bestTirePx cd → td ≠ 0 →
      (calculate_scale hd cd td hw lw W H).source
          = "TIRE/WHEEL-BASED (Priority 1)" ∧
        (calculate_scale hd cd td hw lw W H).scale_cm_per_px
          = td / bestTirePx cd) ∧
    (¬ (0 < bestTirePx cd ∧ td ≠ 0) → 0 < bestHandlePx hd → hw ≠ 0 →
      (calculate_scale hd cd td hw lw W H).source = "HANDLE-BASED (Priority 2)" ∧
        (calculate_scale hd cd td hw lw W H).scale_cm_per_px
          = hw / bestHandlePx hd) ∧
    (¬ (0 < bestTirePx cd ∧ td ≠ 0) → ¬ (0 < bestHandlePx hd ∧ hw ≠ 0) →
      0 < bestLicensePx cd → lw ≠ 0 →
      (calculate_scale hd cd td hw lw W H).source
        = "LICENSE PLATE-BASED (Priority 3)") ∧
    (¬ (0 < bestTirePx cd ∧ td ≠ 0) → ¬ (0 < bestHandlePx hd ∧ hw ≠ 0) →
      ¬ (0 < bestLicensePx cd ∧ lw ≠ 0) → 0 < bestHeadlightPx cd →
      (calculate_scale hd cd td hw lw W H).source
        = "HEADLIGHT-BASED (33 cm fixed – Priority 4)") :=
  ⟨fun h1 h2 => ⟨(scale_tire hd cd td hw lw W H h1 h2).2,
      (scale_tire hd cd td hw lw W H h1 h2).1⟩,
   fun h1 h2 h3 => ⟨(scale_handle hd cd td hw lw W H h1 h2 h3).2,
      (scale_handle hd cd td hw lw W H h1 h2 h3).1⟩,
   fun h1 h2 h3 h4 => (scale_license hd cd td hw lw W H h1 h2 h3 h4).2,
   fun h1 h2 h3 h4 => (scale_headlight hd cd td hw lw W H h1 h2 h3 h4).2⟩



/-- Witness for C3: with both `tireDet` and `handleDet` present the source
is TIRE; removing the tire detection (empty component list) but keeping
the handle yields HANDLE. -/
theorem c3_witness :
    (calculate_scale [handleDet] [tireDet] 60 10 0 500 500).source
        = "TIRE/WHEEL-BASED (Priority 1)" ∧
    (calculate_scale [handleDet] [] 60 10 0 500 500).source
        = "HANDLE-BASED (Priority 2)" :=
  ⟨((c3_scale_priority [handleDet] [tireDet] 60 10 0 500 500).1
      (by decide) (by decide)).1,
   ((c3_scale_priority [handleDet] [] 60 10 0 500 500).2.1
      (by decide) (by decide) (by decide)).1⟩

/-- Counterexample to C4 as stated: `calculate_scale` does NOT return a
positive scale for every combination of caller-supplied reference
measurements — a detected tire with a negative caller-supplied diameter
(-60 cm, pixel size 100) yields the negative scale -3/5. -/
theorem c4_counterexample :
    (calculate_scale [] [tireDet] (-60) 0 0 500 500).scale_cm_per_px = -(3/5) ∧
    ¬ (0 < (calculate_scale [] [tireDet] (-60) 0 0 500 500).scale_cm_per_px) := by
  constructor
  · decide
  · decide

/-- C4 amended: for nonnegative caller-supplied reference measurements and
positive image width, `calculate_scale` is total and always returns a
positive scale; when no reference object passes its confidence threshold
the result is the fallback `100 / image_width_px`. -/
theorem c4_amended_positive_scale (hd cd : List Det) (td hw lw W H : ℚ)
    (htd : 0 ≤ td) (hhw : 0 ≤ hw) (hlw : 0 ≤ lw) (hW : 0 < W) :
    0 < (calculate_scale hd cd td hw lw W H).scale_cm_per_px ∧
    (bestTirePx cd = 0 → bestHandlePx hd = 0 → bestLicensePx cd = 0 →
      bestHeadlightPx cd = 0 →
      (calculate_scale hd cd td hw lw W H).scale_cm_per_px = 100 / W ∧
      (calculate_scale hd cd td hw lw W H).source
        = "FALLBACK (Image width = 1 meter)") := by
  constructor
  · by_cases h1 : 0 < bestTirePx cd ∧ td ≠ 0
    · rw [(scale_tire hd cd td hw lw W H h1.1 h1.2).1]
      exact div_pos (lt_of_le_of_ne htd (Ne.symm h1.2)) h1.1
    · by_cases h2 : 0 < bestHandlePx hd ∧ hw ≠ 0
      · rw [(scale_handle hd cd td hw lw W H h1 h2.1 h2.2).1]
        exact div_pos (lt_of_le_of_ne hhw (Ne.symm h2.2)) h2.1
      · by_cases h3 : 0 < bestLicensePx cd ∧ lw ≠ 0
        · rw [(scale_license hd cd td hw lw W H h1 h2 h3.1 h3.2).1]
          exact div_pos (lt_of_le_of_ne hlw (Ne.symm h3.2)) h3.1
        · by_cases h4 : 0 < bestHeadlightPx cd
          · rw [(scale_headlight hd cd td hw lw W H h1 h2 h3 h4).1]
            exact div_pos (by norm_num) h4
          · rw [(scale_fallback hd cd td hw lw W H h1 h2 h3 h4).1]
            exact div_pos (by norm_num) hW
  · intro e1 e2 e3 e4
    exact scale_fallback hd cd td hw lw W H
      (fun h => absurd h.1 (by rw [e1]; exact lt_irrefl 0))
      (fun h => absurd h.1 (by rw [e2]; exact lt_irrefl 0))
      (fun h => absurd h.1 (by rw [e3]; exact lt_irrefl 0))
      (by rw [e4]; exact lt_irrefl 0)

/-- Witness for C4 amended: no detections at all, image width 500 px —
the scale is positive and equals the fallback `100 / 500 = 0.2` cm/px
(end-to-end scenario B). -/
theorem c4_amended_witness :
    0 < (calculate_scale [] [] 0 0 0 500 500).scale_cm_per_px ∧
    (calculate_scale [] [] 0 0 0 500 500).scale_cm_per_px = 1/5 := by
  have h := c4_amended_positive_scale [] [] 0 0 0 500 500
    (by decide) (by decide) (by decide) (by decide)
  refine ⟨h.1, ?_⟩
  rw [(h.2 rfl rfl rfl rfl).1]
  decide

/-- Which source string the selection lands on, as an iff for each of the
three caller-measured sources: exactly the first truthy candidate wins. -/
theorem scale_source_cases (hd cd : List Det) (td hw lw W H : ℚ) :
    ((calculate_scale hd cd td hw lw W H).source
        = "TIRE/WHEEL-BASED (Priority 1)" ↔ 0 < bestTirePx cd ∧ td ≠ 0) ∧
    ((calculate_scale hd cd td hw lw W H).source
        = "HANDLE-BASED (Priority 2)"
      ↔ ¬ (0 < bestTirePx cd ∧ td ≠ 0) ∧ (0 < bestHandlePx hd ∧ hw ≠ 0)) ∧
    ((calculate_scale hd cd td hw lw W H).source
        = "LICENSE PLATE-BASED (Priority 3)"
      ↔ ¬ (0 < bestTirePx cd ∧ td ≠ 0) ∧ ¬ (0 < bestHandlePx hd ∧ hw ≠ 0) ∧
          (0 < bestLicensePx cd ∧ lw ≠ 0)) := by
  by_cases h1 : 0 < bestTirePx cd ∧ td ≠ 0
  · rw [(scale_tire hd cd td hw lw W H h1.1 h1.2).2]
    simp [h1]
  · by_cases h2 : 0 < bestHandlePx hd ∧ hw ≠ 0
    · rw [(scale_handle hd cd td hw lw W H h1 h2.1 h2.2).2]
      simp [h1, h2]
    · by_cases h3 : 0 < bestLicensePx cd ∧ lw ≠ 0
      · rw [(scale_license hd cd td hw lw W H h1 h2 h3.1 h3.2).2]
        simp [h1, h2, h3]
      · by_cases h4 : 0 < bestHeadlightPx cd
        · rw [(scale_headlight hd cd td hw lw W H h1 h2 h3 h4).2]
          simp [h1, h2, h3]
        · rw [(scale_fallback hd cd td hw lw W H h1 h2 h3 h4).2]
          simp [h1, h2, h3]

/-- The emitted scale is never zero when the image width is positive:
every truthy candidate is nonzero by truthiness, and the fallback divides
100 by a nonzero width. -/
theorem scale_ne_zero (hd cd : List Det) (td hw lw W H : ℚ) (hW : 0 < W) :
    (calculate_scale hd cd td hw lw W H).scale_cm_per_px ≠ 0 := by
  by_cases h1 : 0 < bestTirePx cd ∧ td ≠ 0
  · rw [(scale_tire hd cd td hw lw W H h1.1 h1.2).1]
    exact div_ne_zero h1.2 (ne_of_gt h1.1)
  · by_cases h2 : 0 < bestHandlePx hd ∧ hw ≠ 0
    · rw [(scale_handle hd cd td hw lw W H h1 h2.1 h2.2).1]
      exact div_ne_zero h2.2 (ne_of_gt h2.1)
    · by_cases h3 : 0 < bestLicensePx cd ∧ lw ≠ 0
      · rw [(scale_license hd cd td hw lw W H h1 h2 h3.1 h3.2).1]
        exact div_ne_zero h3.2 (ne_of_gt h3.1)
      · by_cases h4 : 0 < bestHeadlightPx cd
        · rw [(scale_headlight hd cd td hw lw W H h1 h2 h3 h4).1]
          exact div_ne_zero (by norm_num) (ne_of_gt h4)
        · rw [(scale_fallback hd cd td hw lw W H h1 h2 h3 h4).1]
          exact div_ne_zero (by norm_num) (ne_of_gt hW)

/-- C10: a reference object detected above threshold but with a
caller-supplied measurement of 0 produces the candidate value `0.0`, which
Python truthiness treats as absent: the selection never lands on that
source, falls through to the next valid one (ultimately the fallback,
whatever detections are present), and a zero scale is never emitted when
the image width is positive. -/
theorem c10_zero_measurement_falls_through (hd cd : List Det)
    (td hw lw W H : ℚ) :
    (td = 0 → (calculate_scale hd cd td hw lw W H).source
        ≠ "TIRE/WHEEL-BASED (Priority 1)") ∧
    (hw = 0 → (calculate_scale hd cd td hw lw W H).source
        ≠ "HANDLE-BASED (Priority 2)") ∧
    (lw = 0 → (calculate_scale hd cd td hw lw W H).source
        ≠ "LICENSE PLATE-BASED (Priority 3)") ∧
    (td = 0 → 0 < bestHandlePx hd → hw ≠ 0 →
      (calculate_scale hd cd td hw lw W H).source
          = "HANDLE-BASED (Priority 2)" ∧
        (calculate_scale hd cd td hw lw W H).scale_cm_per_px
          = hw / bestHandlePx hd) ∧
    (td = 0 → hw = 0 → lw = 0 → bestHeadlightPx cd = 0 →
      (calculate_scale hd cd td hw lw W H).scale_cm_per_px = 100 / W) ∧
    (0 < W → (calculate_scale hd cd td hw lw W H).scale_cm_per_px ≠ 0) := by
  obtain ⟨hT, hH, hL⟩ := scale_source_cases hd cd td hw lw W H
  refine ⟨?_, ?_, ?_, ?_, ?_, ?_⟩
  · intro htd hsrc
    exact (hT.mp hsrc).2 htd
  · intro hhw hsrc
    exact (hH.mp hsrc).2.2 hhw
  · intro hlw hsrc
    exact (hL.mp hsrc).2.2.2 hlw
  · intro htd hbh hhw
    have h1 : ¬ (0 < bestTirePx cd ∧ td ≠ 0) := fun h => h.2 htd
    exact ⟨(scale_handle hd cd td hw lw W H h1 hbh hhw).2,
      (scale_handle hd cd td hw lw W H h1 hbh hhw).1⟩
  · intro htd hhw hlw hbhl
    exact (scale_fallback hd cd td hw lw W H
      (fun h => h.2 htd) (fun h => h.2 hhw) (fun h => h.2 hlw)
      (by rw [hbhl]; exact lt_irrefl 0)).1
  · exact scale_ne_zero hd cd td hw lw W H

/-- Witness for C10: a tire is detected (square 100 px, conf 0.9) but the
caller supplies `tire_diameter = 0`; a valid handle (20 px wide, width
10 cm) is also present — the zero tire candidate is skipped and the handle
wins with scale `10 / 20 = 1/2`. -/
theorem c10_witness :
    (calculate_scale [handleDet] [tireDet] 0 10 0 500 500).source
        = "HANDLE-BASED (Priority 2)" ∧
    (calculate_scale [handleDet] [tireDet] 0 10 0 500 500).scale_cm_per_px
        = 1/2 := by
  have h := (c10_zero_measurement_falls_through [handleDet] [tireDet]
      0 10 0 500 500).2.2.2.1 rfl (by decide) (by decide)
  refine ⟨h.1, ?_⟩
  rw [h.2]
  decide

/-- C5: for a generic damage consensus item the tire test is a strict
comparison of `interArea / (pixel_area + 1e-6)` against 1/2, applied
against every stored tire box: above 1/2 somewhere the item is excluded
from the paint area and `has_tire` is set; at or below 1/2 everywhere
(which covers exactly-50% geometric overlap) the item's
`pixel_area * scale²` is added to the paint area and `has_tire` is left
alone. -/
theorem c5_tire_overlap_strict (l : List ConsItem) (tbs : List Box) (s : ℚ)
    (d : ConsItem)
    (hnw : (d.is_windshield || strHas "windshield" d.detected_class) = false)
    (hnl : (d.is_light || strHas "light" d.detected_class) = false) :
    ((∃ tb ∈ tbs, 1/2 < overlapFrac d.xyxy tb) →
      (calculate_paint_area (l ++ [d]) tbs s).paint_area
          = (calculate_paint_area l tbs s).paint_area ∧
      (calculate_paint_area (l ++ [d]) tbs s).has_tire = true) ∧
    ((∀ tb ∈ tbs, overlapFrac d.xyxy tb ≤ 1/2) →
      (calculate_paint_area (l ++ [d]) tbs s).paint_area
          = (calculate_paint_area l tbs s).paint_area + d.xyxy.area * s ^ 2 ∧
      (calculate_paint_area (l ++ [d]) tbs s).has_tire
          = (calculate_paint_area l tbs s).has_tire) := by
  have hstep : calculate_paint_area (l ++ [d]) tbs s
      = paintStep tbs s (calculate_paint_area l tbs s) d := by
    unfold calculate_paint_area
    rw [List.foldl_append]
    rfl
  constructor
  · intro hex
    have hov : (tbs.any fun tb => decide (1/2 < overlapFrac d.xyxy tb)) = true := by
      rw [List.any_eq_true]
      obtain ⟨tb, htb, hgt⟩ := hex
      exact ⟨tb, htb, by simpa using hgt⟩
    rw [hstep]
    unfold paintStep
    rw [if_neg (by simp [hnw]), if_neg (by simp [hnl]), hov]
    simp
  · intro hall
    have hov : (tbs.any fun tb => decide (1/2 < overlapFrac d.xyxy tb)) = false := by
      rw [List.any_eq_false]
      intro tb htb
      simpa using hall tb htb
    rw [hstep]
    unfold paintStep
    rw [if_neg (by simp [hnw]), if_neg (by simp [hnl]), hov]
    simp



/-- Witness for C5: a region with exactly 50% of its area inside the tire
box is NOT excluded — its full area (100 px² at scale 1) is added and
`has_tire` stays false. -/
theorem c5_witness :
    (calculate_paint_area ([] ++ [c5item]) [c5tire] 1).paint_area
        = (calculate_paint_area [] [c5tire] 1).paint_area
          + c5item.xyxy.area * 1 ^ 2 ∧
    (calculate_paint_area ([] ++ [c5item]) [c5tire] 1).has_tire
        = (calculate_paint_area [] [c5tire] 1).has_tire :=
  (c5_tire_overlap_strict [] [c5tire] 1 c5item (by decide) (by decide)).2
    (by decide)

/-- C6: the cost pipeline computes, strictly in order, the base subtotal
(paint costs plus the flat costs light 30 / windshield 50 / tire 20, each
iff its flag), the local subtotal via the exchange rate, the tax on it,
the post-tax subtotal, and the final cost via both luxury factors; on
scenario C (light only, rate 1, tax 0.1, both luxury factors 1) this
yields 30, 30, 3, 33, 33. -/
theorem c6_cost_pipeline (pcs : List (Nat × ℚ × ℚ)) (hw hl ht : Bool)
    (rate tax lux clf : ℚ) (cur : String) :
    ((calculate_costs pcs hw hl ht rate tax lux clf cur).subtotal_jod_base
        = (pcs.map fun t => t.2.2).sum + (if hl then 30 else 0)
          + (if hw then 50 else 0) + (if ht then 20 else 0)) ∧
    ((calculate_costs pcs hw hl ht rate tax lux clf cur).subtotal_local_base
        = (calculate_costs pcs hw hl ht rate tax lux clf cur).subtotal_jod_base
          * rate) ∧
    ((calculate_costs pcs hw hl ht rate tax lux clf cur).tax_amount_on_base_local
        = (calculate_costs pcs hw hl ht rate tax lux clf cur).subtotal_local_base
          * tax) ∧
    ((calculate_costs pcs hw hl ht rate tax lux clf cur).subtotal_post_base_tax
        = (calculate_costs pcs hw hl ht rate tax lux clf cur).subtotal_local_base
          + (calculate_costs pcs hw hl ht rate tax lux
              clf cur).tax_amount_on_base_local) ∧
    ((calculate_costs pcs hw hl ht rate tax lux clf cur).final_local_cost
        = (calculate_costs pcs hw hl ht rate tax lux clf cur).subtotal_post_base_tax
          * lux * clf) ∧
    ((calculate_costs [(1, 0, 0)] false true false 1 (1/10) 1 1 "JOD").subtotal_jod_base = 30 ∧
      (calculate_costs [(1, 0, 0)] false true false 1 (1/10) 1 1 "JOD").subtotal_local_base = 30 ∧
      (calculate_costs [(1, 0, 0)] false true false 1 (1/10) 1 1 "JOD").tax_amount_on_base_local = 3 ∧
      (calculate_costs [(1, 0, 0)] false true false 1 (1/10) 1 1 "JOD").subtotal_post_base_tax = 33 ∧
      (calculate_costs [(1, 0, 0)] false true false 1 (1/10) 1 1 "JOD").final_local_cost = 33) := by
  refine ⟨?_, rfl, rfl, rfl, rfl, by decide⟩
  cases hl <;> cases hw <;> cases ht <;> simp [calculate_costs]



/-- Counterexample to C7 as stated: on scenario A the code's per-photo
paint cost is `0.019157 * 900 + 2.093 = 19.3343`, not the claimed
`19.2383` (the claim's arithmetic is off by 0.096). -/
theorem c7_counterexample :
    scenarioAScale.scale_cm_per_px = 3/5 ∧
    scenarioAPaint.paint_area = 900 ∧
    paintCostPhoto scenarioAPaint.paint_area = 193343/10000 ∧
    paintCostPhoto scenarioAPaint.paint_area ≠ 192383/10000 := by decide

/-- C7 amended: scenario A yields scale 0.6 cm/px, paint area 900 cm², and
per-photo paint cost `0.019157 * 900 + 2.093 = 19.3343`; the cost formula
gives 0 for a zero area. -/
theorem c7_amended_scenario_a :
    scenarioAScale.scale_cm_per_px = 3/5 ∧
    scenarioAPaint.paint_area = 900 ∧
    paintCostPhoto scenarioAPaint.paint_area
        = 19157/1000000 * 900 + 2093/1000 ∧
    paintCostPhoto scenarioAPaint.paint_area = 193343/10000 ∧
    paintCostPhoto 0 = 0 := by decide

/-- C8: the checkpoint sequence of a successful 9-photo run is NOT
non-decreasing: the write after photo 1 carries progress 8
(`int((1/9)*80)`), smaller than the progress 10 written at the earlier
`Loading AI models` step. -/
theorem c8_progress_not_monotone :
    progressCheckpoints 9
        = [5, 10, 8, 17, 26, 35, 44, 53, 62, 71, 80, 85, 88, 92, 100] ∧
    (progressCheckpoints 9)[1]? = some 10 ∧
    (progressCheckpoints 9)[2]? = some 8 ∧
    nondecreasing (progressCheckpoints 9) = false := by decide

/-- C9: any stage failure (capability load, photo download, per-photo
processing, final persistence) terminates the job as FAILED with the error
message recorded, progress 0 and no cost breakdown — partial per-photo
results are discarded. -/
theorem c9_failure_terminal {P : Type} (env : JobEnv P) (econ : EconParams) :
    (∀ e, env.capability = .error e →
        process_assessment env econ = failedRecord e) ∧
    (∀ e, env.capability = .ok () → env.download = .error e →
        process_assessment env econ = failedRecord e) ∧
    (∀ e ps, env.capability = .ok () → env.download = .ok ps →
        processPhotosE env.photoStep ps = .error e →
        process_assessment env econ = failedRecord e) ∧
    (∀ e ps accs, env.capability = .ok () → env.download = .ok ps →
        ps ≠ [] → processPhotosE env.photoStep ps = .ok accs →
        env.persist = .error e →
        process_assessment env econ = failedRecord e) ∧
    (∀ e, failedRecord e
        = { status := "failed", progress := 0, error := some e, cost := none }) := by
  refine ⟨?_, ?_, ?_, ?_, fun e => rfl⟩
  · intro e h
    simp [process_assessment, h]
  · intro e hc hdl
    simp [process_assessment, hc, hdl]
  · intro e ps hc hdl hps
    cases ps with
    | nil => simp [processPhotosE] at hps
    | cons p ps' => simp [process_assessment, hc, hdl, hps]
  · intro e ps accs hc hdl hne hok hper
    cases ps with
    | nil => exact absurd rfl hne
    | cons p ps' => simp [process_assessment, hc, hdl, hok, hper]



/-- Witness for C9: photo 1 of `c9env` processes fine, photo 2 fails, and
the job ends as the failed record (progress 0, no cost). -/
theorem c9_witness :
    c9env.photoStep 1 = .ok ⟨0, false, false, false⟩ ∧
    process_assessment c9env c9econ = failedRecord "photo 2 failed" :=
  ⟨rfl, (c9_failure_terminal c9env c9econ).2.2.1 "photo 2 failed" [1, 2, 3]
    rfl rfl rfl⟩

end Baseer
